import Mathlib

/-!
Verification development for the RenEx marketplace backend.

The development shallowly embeds the two specified cores of the repository:
the swap negotiation state machine (src/swaps/service.py) together with the
matching query (src/listings/service.py), and the authentication token
lifecycle (src/auth/service.py, src/auth/utils.py).

Modelling conventions:
- UUIDs are modelled as `Nat`; UTC datetimes as `Nat` (seconds).
- Python floats holding volumes/prices are modelled as `Rat`.
- Database rows live in a `DB` record of lists; SQLAlchemy's
  `scalar_one_or_none()` over a filter becomes `List.find?` with the same
  predicate, and the ORM's in-place mutation of a fetched row becomes a
  keyed in-place replacement in the list.
- `fastapi.HTTPException` is the error type `HTTPException` (status code
  plus detail string), reproducing the exact detail strings of the source.
- The external JWT library is modelled as an ideal signed-token scheme: a
  token records its payload and the signing key; decoding succeeds exactly
  when the keys agree and the `exp` claim has not passed.
- The external passlib `CryptContext(schemes := argon2)` is modelled with an
  idealized injective digest encoding; per passlib's documented contract,
  `verify` raises `UnknownHashError` when the digest cannot be identified
  as belonging to a configured scheme.
- Fields of the ORM rows that no specified operation reads or writes
  (`created_at`, `updated_at`, `description`) are not modelled.
-/

/-- Embeds `fastapi.HTTPException` as raised by the service layer:
an HTTP status code plus a human-readable detail string. -/
structure HTTPException where
  status_code : Nat
  detail : String
  deriving DecidableEq, Repr

/-- Embeds `src/swaps/enums.py` `SwapStatus(str, Enum)`. -/
inductive SwapStatus where
  | pending
  | accepted
  | rejected
  | completed
  | cancelled
  deriving DecidableEq, Repr

/-- The `.value` string of a `SwapStatus` member, as stored in the DB. -/
def SwapStatus.value : SwapStatus → String
  | .pending => "pending"
  | .accepted => "accepted"
  | .rejected => "rejected"
  | .completed => "completed"
  | .cancelled => "cancelled"

/-- Embeds the `Listings` ORM model of `src/listings/models.py`.
`listing_type`, `energy_type` and `status` are stored as strings, exactly
as in the mapped columns. -/
structure Listings where
  id : Nat
  user_id : Nat
  listing_type : String
  energy_type : String
  volume : Rat
  price : Rat
  location : String
  start_time : Nat
  end_time : Nat
  status : String
  deriving DecidableEq, Repr

/-- Embeds the `Swap` ORM model of `src/swaps/models.py`. -/
structure Swap where
  id : Nat
  listing_id : Nat
  initiator_id : Nat
  recipient_id : Nat
  proposed_volume : Rat
  proposed_price : Option Rat
  message : Option String
  status : String
  proposed_at : Nat
  responded_at : Option Nat
  completed_at : Option Nat
  deriving DecidableEq, Repr

/-- The persisted state the swap services read and write: the listings
table and the swaps table. -/
structure DB where
  listings : List Listings
  swaps : List Swap
  deriving DecidableEq, Repr

/-- Embeds `SwapCreateRequest` of `src/swaps/schemas.py`. -/
structure SwapCreateRequest where
  listing_id : Nat
  proposed_volume : Rat
  proposed_price : Option Rat
  message : Option String
  deriving DecidableEq, Repr

/-- Embeds `SwapUpdateRequest` of `src/swaps/schemas.py`: the target status
is a `SwapStatus` enum member, the message is optional. -/
structure SwapUpdateRequest where
  status : SwapStatus
  message : Option String
  deriving DecidableEq, Repr

/-- Python truthiness of an optional string (`if x:`): `None` and the empty
string are falsy. -/
def truthy : Option String → Bool
  | none => false
  | some s => s != ""

/-- In-place mutation of the fetched swap row, keyed by id (the ORM mutates
the single object returned by the query; rows are keyed by primary key). -/
def updateSwap (swaps : List Swap) (k : Nat) (s' : Swap) : List Swap :=
  swaps.map (fun t => if t.id == k then s' else t)

/-- In-place mutation of the fetched listing row, keyed by id. -/
def updateListing (listings : List Listings) (k : Nat) (l' : Listings) : List Listings :=
  listings.map (fun t => if t.id == k then l' else t)

/-- Embeds `create_swap` of `src/swaps/service.py` (lines 20-96). `new_id`
stands for the primary key the database assigns to the inserted row and
`now` for `datetime.now(timezone.utc)`. -/
def create_swap (swap_data : SwapCreateRequest) (initiator_id : Nat) (new_id : Nat)
    (now : Nat) (db : DB) : Except HTTPException (Swap × DB) :=
  match db.listings.find? (fun t => t.id == swap_data.listing_id) with
  | none => .error ⟨404, "Listing not found"⟩
  | some listing =>
    if listing.status != "active" then
      .error ⟨400, "Cannot create swap for inactive listing"⟩
    else if listing.user_id == initiator_id then
      .error ⟨400, "Cannot create swap for your own listing"⟩
    else if listing.volume < swap_data.proposed_volume then
      .error ⟨400, "Proposed volume (" ++ toString swap_data.proposed_volume
        ++ ") exceeds available volume (" ++ toString listing.volume ++ ")"⟩
    else
      match db.swaps.find? (fun s => s.listing_id == swap_data.listing_id
          && s.initiator_id == initiator_id
          && s.status == SwapStatus.pending.value) with
      | some _ => .error ⟨400, "You already have a pending swap request for this listing"⟩
      | none =>
        let new_swap : Swap :=
          { id := new_id
            listing_id := swap_data.listing_id
            initiator_id := initiator_id
            recipient_id := listing.user_id
            proposed_volume := swap_data.proposed_volume
            proposed_price := swap_data.proposed_price
            message := swap_data.message
            status := SwapStatus.pending.value
            proposed_at := now
            responded_at := none
            completed_at := none }
        .ok (new_swap, { db with swaps := db.swaps ++ [new_swap] })

/-- Embeds `respond_to_swap` of `src/swaps/service.py` (lines 149-199). The
query filters on both the swap id and `recipient_id == user_id`. -/
def respond_to_swap (swap_id user_id : Nat) (update_data : SwapUpdateRequest)
    (now : Nat) (db : DB) : Except HTTPException (Swap × DB) :=
  match db.swaps.find? (fun s => s.id == swap_id && s.recipient_id == user_id) with
  | none => .error ⟨404, "Swap not found or you don't have permission to respond"⟩
  | some swap =>
    if swap.status != SwapStatus.pending.value then
      .error ⟨400, "Cannot update swap with status: " ++ swap.status⟩
    else if !(update_data.status == SwapStatus.accepted
        || update_data.status == SwapStatus.rejected) then
      .error ⟨400, "Can only accept or reject a pending swap"⟩
    else
      let message' :=
        if truthy update_data.message then
          if truthy swap.message then
            some (swap.message.getD "" ++ "\n\nResponse: " ++ update_data.message.getD "")
          else
            some ("Response: " ++ update_data.message.getD "")
        else swap.message
      let swap' := { swap with
        status := update_data.status.value
        responded_at := some now
        message := message' }
      .ok (swap', { db with swaps := updateSwap db.swaps swap.id swap' })

/-- Embeds `cancel_swap` of `src/swaps/service.py` (lines 202-241). The
query admits either participant as caller. -/
def cancel_swap (swap_id user_id : Nat) (db : DB) : Except HTTPException (Swap × DB) :=
  match db.swaps.find? (fun s => s.id == swap_id
      && (s.initiator_id == user_id || s.recipient_id == user_id)) with
  | none => .error ⟨404, "Swap not found or you don't have permission to cancel it"⟩
  | some swap =>
    if !(swap.status == SwapStatus.pending.value
        || swap.status == SwapStatus.accepted.value) then
      .error ⟨400, "Cannot cancel swap with status: " ++ swap.status⟩
    else
      let swap' := { swap with status := SwapStatus.cancelled.value }
      .ok (swap', { db with swaps := updateSwap db.swaps swap.id swap' })

/-- Embeds `complete_swap` of `src/swaps/service.py` (lines 244-292): marks
the swap completed, and when the referenced listing is found, decrements its
volume floored at zero, forcing the listing status to `completed` when the
new volume is exactly zero; a missing listing is silently skipped. -/
def complete_swap (swap_id user_id : Nat) (now : Nat) (db : DB) :
    Except HTTPException (Swap × DB) :=
  match db.swaps.find? (fun s => s.id == swap_id && s.recipient_id == user_id) with
  | none => .error ⟨404, "Swap not found or you don't have permission to complete it"⟩
  | some swap =>
    if swap.status != SwapStatus.accepted.value then
      .error ⟨400, "Can only complete an accepted swap"⟩
    else
      let swap' := { swap with
        status := SwapStatus.completed.value
        completed_at := some now }
      match db.listings.find? (fun t => t.id == swap.listing_id) with
      | none => .ok (swap', { db with swaps := updateSwap db.swaps swap.id swap' })
      | some listing =>
        let newVolume := max 0 (listing.volume - swap.proposed_volume)
        let listing' := { listing with
          volume := newVolume
          status := if newVolume = 0 then "completed" else listing.status }
        .ok (swap', { listings := updateListing db.listings listing.id listing'
                      swaps := updateSwap db.swaps swap.id swap' })

/-- Embeds `get_matching_listings` of `src/listings/service.py`
(lines 243-278). -/
def get_matching_listings (user_listing_id : Nat) (db : DB) :
    Except HTTPException (List Listings) :=
  match db.listings.find? (fun t => t.id == user_listing_id) with
  | none => .error ⟨404, "Listing not found"⟩
  | some user_listing =>
    let opposite_type := if user_listing.listing_type == "supply" then "demand" else "supply"
    .ok (db.listings.filter (fun m =>
      m.user_id != user_listing.user_id
      && m.listing_type == opposite_type
      && m.energy_type == user_listing.energy_type
      && m.status == "active"
      && decide (m.start_time ≤ user_listing.end_time)
      && decide (m.end_time ≥ user_listing.start_time)))

/-- Embeds the configuration values of `src/config.py` consumed by the
token issuer/verifier. The cached settings singleton is modelled by passing
the record explicitly. -/
structure Settings where
  JWT_SECRET_KEY : String
  JWT_ALGORITHM : String
  JWT_EXP : Nat
  JWT_REFRESH_EXP : Nat
  JWT_REFRESH_SECRET : String
  deriving DecidableEq, Repr

/-- The claim set carried by both token kinds: `{sub, iat, exp}`. -/
structure JwtClaims where
  sub : String
  iat : Nat
  exp : Nat
  deriving DecidableEq, Repr

/-- Ideal model of a signed JWT: the payload together with the key it was
signed with (an unforgeable signature is modelled by recording the key). -/
structure JwtToken where
  payload : JwtClaims
  key : String
  deriving DecidableEq, Repr

/-- The two failure kinds of the JWT library the services catch:
`jwt.ExpiredSignatureError` and the other `jwt.PyJWTError`s. -/
inductive JwtError where
  | expiredSignature
  | invalid
  deriving DecidableEq, Repr

/-- Model of `jwt.encode(payload, key, algorithm)`. -/
def jwt_encode (payload : JwtClaims) (key : String) : JwtToken :=
  ⟨payload, key⟩

/-- Model of `jwt.decode(token, key)`: fails closed with a structural error
when the verification key differs from the signing key, raises
`ExpiredSignatureError` when the `exp` claim has passed, and otherwise
returns the payload. -/
def jwt_decode (token : JwtToken) (key : String) (now : Nat) :
    Except JwtError JwtClaims :=
  if token.key != key then .error .invalid
  else if token.payload.exp ≤ now then .error .expiredSignature
  else .ok token.payload

/-- Embeds `create_access_token` of `src/auth/service.py` (lines 153-163):
claims `{sub, iat := now, exp := now + JWT_EXP minutes}` signed with the
access secret. Time is in seconds, so the expiry is `60 * JWT_EXP`. -/
def create_access_token (settings : Settings) (sub : String) (now : Nat) : JwtToken :=
  jwt_encode { sub := sub, iat := now, exp := now + 60 * settings.JWT_EXP }
    settings.JWT_SECRET_KEY

/-- Embeds `verify_access_token` of `src/auth/service.py` (lines 166-179). -/
def verify_access_token (settings : Settings) (token : JwtToken) (now : Nat) :
    Except HTTPException String :=
  match jwt_decode token settings.JWT_SECRET_KEY now with
  | .ok payload => .ok payload.sub
  | .error .expiredSignature => .error ⟨401, "Access token has expired"⟩
  | .error .invalid => .error ⟨401, "Bearer access token is invalid"⟩

/-- Embeds `create_refresh_token` of `src/auth/service.py` (lines 182-196):
same claim shape, day-scale expiry (`86400 * JWT_REFRESH_EXP` seconds),
signed with the distinct refresh secret. -/
def create_refresh_token (settings : Settings) (sub : String) (now : Nat) : JwtToken :=
  jwt_encode { sub := sub, iat := now, exp := now + 86400 * settings.JWT_REFRESH_EXP }
    settings.JWT_REFRESH_SECRET

/-- Embeds `verify_refresh_token` of `src/auth/service.py` (lines 199-216);
the source reuses the access-token detail strings verbatim. -/
def verify_refresh_token (settings : Settings) (token : JwtToken) (now : Nat) :
    Except HTTPException String :=
  match jwt_decode token settings.JWT_REFRESH_SECRET now with
  | .ok payload => .ok payload.sub
  | .error .expiredSignature => .error ⟨401, "Access token has expired"⟩
  | .error .invalid => .error ⟨401, "Bearer access token is invalid"⟩

/-- Embeds `LoginResponse` of `src/auth/schemas.py` as used by the refresh
flow: the freshly minted token pair. -/
structure LoginResponse where
  access_token : JwtToken
  refresh_token : JwtToken
  token_type : String
  deriving DecidableEq, Repr

/-- Embeds `get_refresh_token` of `src/auth/service.py` (lines 227-240):
verifies the refresh token and mints a new access+refresh pair for the same
subject; any failure inside the `try` block is surfaced as a single 401. -/
def get_refresh_token (settings : Settings) (token : JwtToken) (now : Nat) :
    Except HTTPException LoginResponse :=
  match verify_refresh_token settings token now with
  | .ok id =>
    .ok { access_token := create_access_token settings id now
          refresh_token := create_refresh_token settings id now
          token_type := "bearer" }
  | .error _ => .error ⟨401, "Invalid token credentials"⟩

/-- The failure passlib's `CryptContext.verify` raises when the digest
cannot be identified as belonging to a configured scheme
(`UnknownHashError`, a `ValueError`). -/
inductive PasslibError where
  | unknownHash
  deriving DecidableEq, Repr

/-- Identification marker of well-formed argon2 digests in the idealized
digest encoding. -/
def argon2Marker : String := "$argon2id$"

/-- Embeds `get_password_hash` of `src/auth/utils.py`, over the idealized
passlib model: the digest of `password` is the argon2 marker followed by an
injective encoding of the password (standing for the salted argon2 hash). -/
def get_password_hash (password : String) : String :=
  argon2Marker ++ password

/-- Model of passlib `CryptContext(schemes := argon2).verify`: a digest
that is not recognized as an argon2 hash raises `UnknownHashError`;
a recognized digest verifies against the password. -/
def pwd_context_verify (password password_hash : String) :
    Except PasslibError Bool :=
  if argon2Marker.data.isPrefixOf password_hash.data then
    .ok (password_hash == argon2Marker ++ password)
  else .error .unknownHash

/-- Embeds `verify_password_hash` of `src/auth/utils.py` (lines 85-87): a
bare passthrough to `pwd_context.verify` with no exception handling. -/
def verify_password_hash (password password_hash : String) :
    Except PasslibError Bool :=
  pwd_context_verify password password_hash

/-- Primary keys of the swaps table are unique. -/
@[reducible] def UniqueSwapIds (db : DB) : Prop :=
  (db.swaps.map (fun s => s.id)).Nodup

/-- Primary keys of the listings table are unique. -/
@[reducible] def UniqueListingIds (db : DB) : Prop :=
  (db.listings.map (fun l => l.id)).Nodup

/-- One call to one of the three swap lifecycle operations that mutate an
existing swap, with arbitrary caller and arguments. -/
inductive SwapOp where
  | respond (swap_id user_id : Nat) (update_data : SwapUpdateRequest) (now : Nat)
  | cancel (swap_id user_id : Nat)
  | complete (swap_id user_id : Nat) (now : Nat)
  deriving DecidableEq, Repr

/-- Runs one lifecycle call against the store; a rejected call leaves the
store unchanged (all guards are checked before any mutation). -/
def applySwapOp (op : SwapOp) (db : DB) : DB :=
  match op with
  | .respond sid uid upd now =>
    match respond_to_swap sid uid upd now db with
    | .ok (_, db') => db'
    | .error _ => db
  | .cancel sid uid =>
    match cancel_swap sid uid db with
    | .ok (_, db') => db'
    | .error _ => db
  | .complete sid uid now =>
    match complete_swap sid uid now db with
    | .ok (_, db') => db'
    | .error _ => db

/-- Runs a sequence of lifecycle calls left to right. -/
def applySwapOps (ops : List SwapOp) (db : DB) : DB :=
  ops.foldl (fun d op => applySwapOp op d) db

/-- The three terminal swap states. -/
def terminalStatus (st : String) : Prop :=
  st = "completed" ∨ st = "rejected" ∨ st = "cancelled"

/-- The matching criteria exactly as the specification words them: active,
different owner, opposite listing type, same energy type, and inclusive
time-window overlap. -/
def matchesSpec (L M : Listings) : Prop :=
  M.status = "active" ∧
  M.user_id ≠ L.user_id ∧
  ((L.listing_type = "supply" ∧ M.listing_type = "demand") ∨
    (L.listing_type = "demand" ∧ M.listing_type = "supply")) ∧
  M.energy_type = L.energy_type ∧
  M.start_time ≤ L.end_time ∧
  M.end_time ≥ L.start_time

/-! ### Generic lemmas about keyed rows -/

/-- Two rows of a table with unique keys that share a key are the same row. -/
theorem eq_of_nodup_keys {α : Type} (key : α → Nat) {l : List α} {a b : α}
    (hnd : (l.map key).Nodup) (ha : a ∈ l) (hb : b ∈ l) (hk : key a = key b) :
    a = b := by
  induction l with
  | nil => cases ha
  | cons c t ih =>
    rw [List.map_cons, List.nodup_cons] at hnd
    rcases List.mem_cons.mp ha with rfl | hat
    · rcases List.mem_cons.mp hb with rfl | hbt
      · rfl
      · exfalso
        apply hnd.1
        rw [hk]
        exact List.mem_map_of_mem key hbt
    · rcases List.mem_cons.mp hb with rfl | hbt
      · exfalso
        apply hnd.1
        rw [← hk]
        exact List.mem_map_of_mem key hat
      · exact ih hnd.2 hat hbt

/-- Over a table with unique keys, a query whose predicate pins down the key
returns exactly the member row satisfying it. -/
theorem find_eq_some_of_nodup_keys {α : Type} (key : α → Nat) (p : α → Bool)
    {l : List α} {a : α} (hnd : (l.map key).Nodup) (ha : a ∈ l) (hpa : p a = true)
    (hk : ∀ b, p b = true → key b = key a) : l.find? p = some a := by
  induction l with
  | nil => cases ha
  | cons c t ih =>
    rw [List.map_cons, List.nodup_cons] at hnd
    cases hc : p c with
    | true =>
      rw [List.find?_cons_of_pos _ hc]
      rcases List.mem_cons.mp ha with rfl | hat
      · rfl
      · exfalso
        apply hnd.1
        rw [hk c hc]
        exact List.mem_map_of_mem key hat
    | false =>
      rw [List.find?_cons_of_neg _ (by simp [hc])]
      have hat : a ∈ t := by
        rcases List.mem_cons.mp ha with rfl | h
        · rw [hpa] at hc; cases hc
        · exact h
      exact ih hnd.2 hat

/-! ### Fixtures for concrete evaluations -/

/-- Concrete configuration used by the concrete evaluations. -/
def settingsW : Settings :=
  { JWT_SECRET_KEY := "access-secret"
    JWT_ALGORITHM := "HS256"
    JWT_EXP := 15
    JWT_REFRESH_EXP := 7
    JWT_REFRESH_SECRET := "refresh-secret" }

/-! ### C2: access-token round trip -/

/-- C2: for every user id `u`, verifying an access token issued for `u`
before its expiry has passed succeeds and returns `u`:
`verify_access_token (create_access_token {sub := u}) = u`. -/
theorem access_token_round_trip (settings : Settings) (u : String)
    (issued verified : Nat)
    (h : verified < issued + 60 * settings.JWT_EXP) :
    verify_access_token settings (create_access_token settings u issued) verified
      = .ok u := by
  simp [verify_access_token, create_access_token, jwt_encode, jwt_decode,
    Nat.not_le.mpr h]

/-- Concrete instance of `access_token_round_trip`. -/
theorem access_token_round_trip_witness :
    verify_access_token settingsW (create_access_token settingsW "42" 1000) 1000
      = .ok "42" :=
  access_token_round_trip settingsW "42" 1000 1000 (by decide)

/-! ### C7: refresh rotation -/

/-- C7: for every valid, unexpired refresh token carrying subject `u`, the
refresh operation succeeds and returns a freshly minted access+refresh pair
both bound to the same subject `u`. -/
theorem refresh_rotates_same_subject (settings : Settings) (token : JwtToken)
    (now : Nat)
    (hkey : token.key = settings.JWT_REFRESH_SECRET)
    (hexp : now < token.payload.exp) :
    get_refresh_token settings token now =
      .ok { access_token := create_access_token settings token.payload.sub now
            refresh_token := create_refresh_token settings token.payload.sub now
            token_type := "bearer" } ∧
    (create_access_token settings token.payload.sub now).payload.sub
      = token.payload.sub ∧
    (create_refresh_token settings token.payload.sub now).payload.sub
      = token.payload.sub := by
  refine ⟨?_, rfl, rfl⟩
  simp [get_refresh_token, verify_refresh_token, jwt_decode, hkey,
    Nat.not_le.mpr hexp]

/-- Concrete instance of `refresh_rotates_same_subject`. -/
theorem refresh_rotates_same_subject_witness :
    get_refresh_token settingsW (create_refresh_token settingsW "7" 0) 5 =
      .ok { access_token := create_access_token settingsW "7" 5
            refresh_token := create_refresh_token settingsW "7" 5
            token_type := "bearer" } ∧
    (create_access_token settingsW "7" 5).payload.sub = "7" ∧
    (create_refresh_token settingsW "7" 5).payload.sub = "7" :=
  refresh_rotates_same_subject settingsW (create_refresh_token settingsW "7" 0) 5
    rfl (by decide)

/-! ### C8: malformed digest on password verification -/

/-- C8, evaluation of the code at the failing input: verifying a plaintext
against a malformed digest (one the hash backend cannot identify) does not
return `false` — it propagates passlib's `UnknownHashError`, because
`verify_password_hash` passes straight through to `pwd_context.verify`
with no exception handling. -/
theorem verify_password_hash_malformed_digest_raises :
    verify_password_hash "hunter2" "not-a-digest"
      = .error PasslibError.unknownHash := by
  rfl

/-! ### C1: completing an accepted swap updates the listing -/

/-- C1: when the recipient of an `accepted` swap calls `complete_swap` and
the referenced listing is present, the call succeeds: the swap becomes
`completed` with `completed_at` set, the listing volume becomes
`max 0 (volume - proposed_volume)`, and the listing status is forced to
`completed` exactly when the new volume is zero, otherwise unchanged. -/
theorem complete_swap_updates_listing (db : DB) (s : Swap) (l : Listings) (now : Nat)
    (hU : UniqueSwapIds db) (hL : UniqueListingIds db)
    (hs : s ∈ db.swaps) (hl : l ∈ db.listings)
    (hid : l.id = s.listing_id) (hacc : s.status = "accepted") :
    complete_swap s.id s.recipient_id now db =
      .ok ({ s with status := "completed", completed_at := some now },
        { listings := updateListing db.listings l.id
            { l with
              volume := max 0 (l.volume - s.proposed_volume)
              status := if max 0 (l.volume - s.proposed_volume) = 0
                then "completed" else l.status }
          swaps := updateSwap db.swaps s.id
            { s with status := "completed", completed_at := some now } }) := by
  have hfs : db.swaps.find?
      (fun t => t.id == s.id && t.recipient_id == s.recipient_id) = some s := by
    apply find_eq_some_of_nodup_keys (fun t => t.id) _ hU hs
    · simp
    · intro b hb
      simp at hb
      exact hb.1
  have hfl : db.listings.find? (fun t => t.id == s.listing_id) = some l := by
    apply find_eq_some_of_nodup_keys (fun t => t.id) _ hL hl
    · simp [hid]
    · intro b hb
      simp at hb
      rw [hb, hid]
  simp [complete_swap, hfs, hfl, hacc, SwapStatus.value]

/-- Listing fixture for the concrete completion run. -/
def listingC1 : Listings :=
  { id := 7, user_id := 10, listing_type := "supply", energy_type := "solar"
    volume := 100, price := 12, location := "farm one"
    start_time := 0, end_time := 10, status := "active" }

/-- Swap fixture for the concrete completion run. -/
def swapC1 : Swap :=
  { id := 1, listing_id := 7, initiator_id := 20, recipient_id := 10
    proposed_volume := 50, proposed_price := none, message := none
    status := "accepted", proposed_at := 0, responded_at := some 1
    completed_at := none }

/-- Store fixture for the concrete completion run. -/
def dbC1 : DB := { listings := [listingC1], swaps := [swapC1] }

/-- Concrete instance of `complete_swap_updates_listing`. -/
theorem complete_swap_updates_listing_witness :
    complete_swap swapC1.id swapC1.recipient_id 99 dbC1 =
      .ok ({ swapC1 with status := "completed", completed_at := some 99 },
        { listings := updateListing dbC1.listings listingC1.id
            { listingC1 with
              volume := max 0 (listingC1.volume - swapC1.proposed_volume)
              status := if max 0 (listingC1.volume - swapC1.proposed_volume) = 0
                then "completed" else listingC1.status }
          swaps := updateSwap dbC1.swaps swapC1.id
            { swapC1 with status := "completed", completed_at := some 99 } }) :=
  complete_swap_updates_listing dbC1 swapC1 listingC1 99
    (by decide) (by decide) (by decide) (by decide) rfl rfl

/-! ### C10: completing a swap whose listing is absent -/

/-- C10: when the listing referenced by an accepted swap is absent from the
store, `complete_swap` by the recipient still succeeds — the swap is marked
`completed` with `completed_at` set, the volume decrement is silently
skipped, and no error is surfaced. -/
theorem complete_swap_missing_listing (db : DB) (s : Swap) (now : Nat)
    (hU : UniqueSwapIds db) (hs : s ∈ db.swaps)
    (hacc : s.status = "accepted")
    (hmiss : ∀ l ∈ db.listings, l.id ≠ s.listing_id) :
    complete_swap s.id s.recipient_id now db =
      .ok ({ s with status := "completed", completed_at := some now },
        { db with
          swaps := updateSwap db.swaps s.id
            { s with status := "completed", completed_at := some now } }) := by
  have hfs : db.swaps.find?
      (fun t => t.id == s.id && t.recipient_id == s.recipient_id) = some s := by
    apply find_eq_some_of_nodup_keys (fun t => t.id) _ hU hs
    · simp
    · intro b hb
      simp at hb
      exact hb.1
  have hfl : db.listings.find? (fun t => t.id == s.listing_id) = none := by
    rw [List.find?_eq_none]
    intro l hl
    simp
    exact hmiss l hl
  simp [complete_swap, hfs, hfl, hacc, SwapStatus.value]

/-- Swap fixture referencing a listing id that no stored listing has. -/
def swapC10 : Swap :=
  { id := 2, listing_id := 99, initiator_id := 21, recipient_id := 11
    proposed_volume := 30, proposed_price := some 1, message := none
    status := "accepted", proposed_at := 0, responded_at := some 2
    completed_at := none }

/-- Store fixture with no listings at all. -/
def dbC10 : DB := { listings := [], swaps := [swapC10] }

/-- Concrete instance of `complete_swap_missing_listing`. -/
theorem complete_swap_missing_listing_witness :
    complete_swap swapC10.id swapC10.recipient_id 8 dbC10 =
      .ok ({ swapC10 with status := "completed", completed_at := some 8 },
        { dbC10 with
          swaps := updateSwap dbC10.swaps swapC10.id
            { swapC10 with status := "completed", completed_at := some 8 } }) :=
  complete_swap_missing_listing dbC10 swapC10 8
    (by decide) (by decide) rfl (by decide)

/-! ### C5: what the guard denials distinguish -/

/-- Pending swap fixture whose recipient is user 10. -/
def swapC5 : Swap :=
  { id := 1, listing_id := 7, initiator_id := 20, recipient_id := 10
    proposed_volume := 5, proposed_price := none, message := none
    status := "pending", proposed_at := 0, responded_at := none
    completed_at := none }

/-- Store fixture holding exactly `swapC5`. -/
def dbC5 : DB := { listings := [], swaps := [swapC5] }

/-- An empty store. -/
def dbEmpty : DB := { listings := [], swaps := [] }

/-- Update request fixture: accept, no message. -/
def updC5 : SwapUpdateRequest := { status := SwapStatus.accepted, message := none }

/-- C5 counterexample: a caller who is not the recipient (user 99) of the
existing swap 1 receives exactly the same 404 denial as a call on a store
where swap 1 is absent — the forbidden case is not distinct from
not-found. -/
theorem respond_denial_conflates_forbidden_and_not_found :
    respond_to_swap 1 99 updC5 0 dbC5 =
      .error ⟨404, "Swap not found or you don't have permission to respond"⟩ ∧
    respond_to_swap 1 99 updC5 0 dbEmpty =
      .error ⟨404, "Swap not found or you don't have permission to respond"⟩ :=
  ⟨rfl, rfl⟩

/-- C5 amended: every guard denial of respond/cancel/complete is one of two
kinds — the combined not-found-or-forbidden 404 with its fixed detail
string, or an invalid-transition 400; in particular a wrong caller on an
existing swap receives the same 404 denial as a missing swap, not a
distinct forbidden denial. -/
theorem swap_denial_kinds (swap_id user_id : Nat)
    (update_data : SwapUpdateRequest) (now : Nat) (db : DB) :
    (∀ e, respond_to_swap swap_id user_id update_data now db = .error e →
      e = ⟨404, "Swap not found or you don't have permission to respond"⟩
        ∨ e.status_code = 400) ∧
    (∀ e, cancel_swap swap_id user_id db = .error e →
      e = ⟨404, "Swap not found or you don't have permission to cancel it"⟩
        ∨ e.status_code = 400) ∧
    (∀ e, complete_swap swap_id user_id now db = .error e →
      e = ⟨404, "Swap not found or you don't have permission to complete it"⟩
        ∨ e.status_code = 400) ∧
    ((∀ t ∈ db.swaps, t.id = swap_id → t.recipient_id ≠ user_id) →
      respond_to_swap swap_id user_id update_data now db =
        .error ⟨404, "Swap not found or you don't have permission to respond"⟩) := by
  refine ⟨?_, ?_, ?_, ?_⟩
  · intro e he
    cases hf : db.swaps.find? (fun s => s.id == swap_id && s.recipient_id == user_id) with
    | none =>
      simp only [respond_to_swap, hf, Except.error.injEq] at he
      exact Or.inl he.symm
    | some sw =>
      simp only [respond_to_swap, hf] at he
      split at he
      · simp only [Except.error.injEq] at he
        exact Or.inr (by rw [← he])
      · split at he
        · simp only [Except.error.injEq] at he
          exact Or.inr (by rw [← he])
        · simp at he
  · intro e he
    cases hf : db.swaps.find? (fun s => s.id == swap_id
        && (s.initiator_id == user_id || s.recipient_id == user_id)) with
    | none =>
      simp only [cancel_swap, hf, Except.error.injEq] at he
      exact Or.inl he.symm
    | some sw =>
      simp only [cancel_swap, hf] at he
      split at he
      · simp only [Except.error.injEq] at he
        exact Or.inr (by rw [← he])
      · simp at he
  · intro e he
    cases hf : db.swaps.find? (fun s => s.id == swap_id && s.recipient_id == user_id) with
    | none =>
      simp only [complete_swap, hf, Except.error.injEq] at he
      exact Or.inl he.symm
    | some sw =>
      cases hfl : db.listings.find? (fun t => t.id == sw.listing_id) with
      | none =>
        simp only [complete_swap, hf, hfl] at he
        split at he
        · simp only [Except.error.injEq] at he
          exact Or.inr (by rw [← he])
        · simp at he
      | some listing =>
        simp only [complete_swap, hf, hfl] at he
        split at he
        · simp only [Except.error.injEq] at he
          exact Or.inr (by rw [← he])
        · simp at he
  · intro hno
    have hf : db.swaps.find? (fun s => s.id == swap_id && s.recipient_id == user_id)
        = none := by
      rw [List.find?_eq_none]
      intro t ht
      simp only [Bool.and_eq_true, beq_iff_eq, not_and]
      intro hid
      exact hno t ht hid
    unfold respond_to_swap
    rw [hf]

/-- Concrete instance of the wrong-caller clause of `swap_denial_kinds`. -/
theorem swap_denial_kinds_witness :
    respond_to_swap 1 55 updC5 0 dbC5 =
      .error ⟨404, "Swap not found or you don't have permission to respond"⟩ :=
  (swap_denial_kinds 1 55 updC5 0 dbC5).2.2.2 (by decide)

/-! ### C9: the response-message join -/

/-- Extracts the stored message from a successful lifecycle call. -/
def respondedMessage (r : Except HTTPException (Swap × DB)) : Option (Option String) :=
  match r with
  | .ok (s, _) => some s.message
  | .error _ => none

/-- Pending swap fixture with no prior message. -/
def swapC9 : Swap :=
  { id := 4, listing_id := 7, initiator_id := 20, recipient_id := 10
    proposed_volume := 5, proposed_price := none, message := none
    status := "pending", proposed_at := 0, responded_at := none
    completed_at := none }

/-- Store fixture holding exactly `swapC9`. -/
def dbC9 : DB := { listings := [], swaps := [swapC9] }

/-- Update request fixture: accept with response message "hi". -/
def updC9 : SwapUpdateRequest := { status := SwapStatus.accepted, message := some "hi" }

/-- C9 counterexample: the recipient responds with message "hi" to a swap
with no prior message; the stored message becomes "Response: hi", not the
verbatim "hi" the claim states. -/
theorem respond_message_not_verbatim :
    respondedMessage (respond_to_swap 4 10 updC9 5 dbC9) = some (some "Response: hi") ∧
    some (some "Response: hi") ≠ (some (some "hi") : Option (Option String)) := by
  exact ⟨rfl, by decide⟩

/-- The message-join rule the code implements: with no prior message (or an
empty one) the stored message becomes the response prefix plus the new
message; a non-empty prior message is kept and joined. -/
def joinResponse (orig : Option String) (m : String) : Option String :=
  match orig with
  | none => some ("Response: " ++ m)
  | some o =>
    if o = "" then some ("Response: " ++ m)
    else some (o ++ "\n\nResponse: " ++ m)

/-- C9 amended: when the recipient responds to a pending swap with a
non-empty message `m`, a non-empty prior message is preserved and joined as
`"<original>\n\nResponse: <m>"`; with no prior message the stored message
is set to `"Response: <m>"` (the response prefix, not `m` verbatim). -/
theorem respond_message_format (db : DB) (s : Swap) (user_id now : Nat)
    (update_data : SwapUpdateRequest) (m : String)
    (hU : UniqueSwapIds db) (hs : s ∈ db.swaps)
    (hrec : s.recipient_id = user_id) (hp : s.status = "pending")
    (hst : update_data.status = SwapStatus.accepted
      ∨ update_data.status = SwapStatus.rejected)
    (hm : update_data.message = some m) (hm' : m ≠ "") :
    respond_to_swap s.id user_id update_data now db =
      .ok ({ s with
          status := update_data.status.value
          responded_at := some now
          message := joinResponse s.message m },
        { db with
          swaps := updateSwap db.swaps s.id
            { s with
              status := update_data.status.value
              responded_at := some now
              message := joinResponse s.message m } }) := by
  have hfs : db.swaps.find? (fun t => t.id == s.id && t.recipient_id == user_id)
      = some s := by
    apply find_eq_some_of_nodup_keys (fun t => t.id) _ hU hs
    · simp [hrec]
    · intro b hb
      simp at hb
      exact hb.1
  have hok : (update_data.status == SwapStatus.accepted
      || update_data.status == SwapStatus.rejected) = true := by
    rcases hst with h | h <;> simp [h]
  cases hsm : s.message with
  | none =>
    simp [respond_to_swap, hfs, hp, SwapStatus.value, hok, truthy, hm, hm',
      joinResponse, hsm]
  | some orig =>
    by_cases horig : orig = ""
    · simp [respond_to_swap, hfs, hp, SwapStatus.value, hok, truthy, hm, hm',
        joinResponse, hsm, horig]
    · simp [respond_to_swap, hfs, hp, SwapStatus.value, hok, truthy, hm, hm',
        joinResponse, hsm, horig]

/-- Pending swap fixture with a non-empty prior message. -/
def swapC9w : Swap :=
  { id := 6, listing_id := 7, initiator_id := 20, recipient_id := 10
    proposed_volume := 5, proposed_price := none, message := some "please trade"
    status := "pending", proposed_at := 0, responded_at := none
    completed_at := none }

/-- Store fixture holding exactly `swapC9w`. -/
def dbC9w : DB := { listings := [], swaps := [swapC9w] }

/-- Update request fixture: accept with response message "deal". -/
def updC9w : SwapUpdateRequest := { status := SwapStatus.accepted, message := some "deal" }

/-- Concrete instance of `respond_message_format`. -/
theorem respond_message_format_witness :
    respond_to_swap swapC9w.id 10 updC9w 6 dbC9w =
      .ok ({ swapC9w with
          status := updC9w.status.value
          responded_at := some 6
          message := joinResponse swapC9w.message "deal" },
        { dbC9w with
          swaps := updateSwap dbC9w.swaps swapC9w.id
            { swapC9w with
              status := updC9w.status.value
              responded_at := some 6
              message := joinResponse swapC9w.message "deal" } }) :=
  respond_message_format dbC9w swapC9w 10 6 updC9w "deal"
    (by decide) (by decide) rfl rfl (Or.inl rfl) rfl (by decide)

/-! ### C6: the matching query -/

/-- The filter of the matching query (`src/listings/service.py` lines
263-273), parameterized by the fetched listing. -/
def matchResult (user_listing : Listings) (db : DB) : List Listings :=
  db.listings.filter (fun m =>
    m.user_id != user_listing.user_id
    && m.listing_type == (if user_listing.listing_type == "supply" then "demand" else "supply")
    && m.energy_type == user_listing.energy_type
    && m.status == "active"
    && decide (m.start_time ≤ user_listing.end_time)
    && decide (m.end_time ≥ user_listing.start_time))

/-- C6: for a stored listing `L` of a valid listing type, `find_matches`
succeeds and returns exactly the stored listings `M` that satisfy the
specified criteria: active, different owner, opposite listing type, same
energy type, and inclusive time-window overlap — none omitted, none
extra. -/
theorem get_matching_listings_spec (db : DB) (L : Listings)
    (hU : UniqueListingIds db) (hmem : L ∈ db.listings)
    (htype : L.listing_type = "supply" ∨ L.listing_type = "demand") :
    get_matching_listings L.id db = .ok (matchResult L db) ∧
    ∀ M, (M ∈ matchResult L db ↔ (M ∈ db.listings ∧ matchesSpec L M)) := by
  have hfl : db.listings.find? (fun t => t.id == L.id) = some L := by
    apply find_eq_some_of_nodup_keys (fun t => t.id) _ hU hmem
    · simp
    · intro b hb
      simpa using hb
  constructor
  · simp [get_matching_listings, hfl, matchResult]
  · intro M
    rw [matchResult, List.mem_filter]
    constructor
    · rintro ⟨hMem, hp⟩
      refine ⟨hMem, ?_⟩
      simp only [Bool.and_eq_true, bne_iff_ne, beq_iff_eq, decide_eq_true_eq,
        ne_eq] at hp
      obtain ⟨⟨⟨⟨⟨hu, ht⟩, he⟩, hs⟩, h1⟩, h2⟩ := hp
      rcases htype with hsup | hdem
      · rw [hsup] at ht
        simp at ht
        exact ⟨hs, hu, Or.inl ⟨hsup, ht⟩, he, h1, h2⟩
      · rw [hdem] at ht
        simp at ht
        exact ⟨hs, hu, Or.inr ⟨hdem, ht⟩, he, h1, h2⟩
    · rintro ⟨hMem, hs, hu, hopp, he, h1, h2⟩
      refine ⟨hMem, ?_⟩
      rcases hopp with ⟨hsup, hM⟩ | ⟨hdem, hM⟩
      · simp [hsup, hM, hu, he, hs, h1, h2]
      · simp [hdem, hM, hu, he, hs, h1, h2]

/-- Seed listing fixture for the concrete matching run. -/
def listingC6 : Listings :=
  { id := 1, user_id := 10, listing_type := "supply", energy_type := "solar"
    volume := 100, price := 10, location := "north farm"
    start_time := 0, end_time := 10, status := "active" }

/-- A compatible counter-listing: demand, solar, other owner, window
overlapping inclusively. -/
def listingC6match : Listings :=
  { id := 2, user_id := 11, listing_type := "demand", energy_type := "solar"
    volume := 50, price := 9, location := "south site"
    start_time := 10, end_time := 15, status := "active" }

/-- An incompatible listing: wrong energy type. -/
def listingC6other : Listings :=
  { id := 3, user_id := 12, listing_type := "demand", energy_type := "wind"
    volume := 50, price := 9, location := "west site"
    start_time := 0, end_time := 10, status := "active" }

/-- Store fixture for the concrete matching run. -/
def dbC6 : DB := { listings := [listingC6, listingC6match, listingC6other], swaps := [] }

/-- Concrete instance of `get_matching_listings_spec`. -/
theorem get_matching_listings_spec_witness :
    get_matching_listings listingC6.id dbC6 = .ok (matchResult listingC6 dbC6) :=
  (get_matching_listings_spec dbC6 listingC6 (by decide) (by decide) (Or.inl rfl)).1

/-! ### C4: the propose guards -/

/-- The row `create_swap` inserts when every guard holds: a `pending` swap
whose recipient is the listing owner at this instant. -/
def proposedSwap (swap_data : SwapCreateRequest) (initiator_id new_id now recipient_id : Nat) :
    Swap :=
  { id := new_id
    listing_id := swap_data.listing_id
    initiator_id := initiator_id
    recipient_id := recipient_id
    proposed_volume := swap_data.proposed_volume
    proposed_price := swap_data.proposed_price
    message := swap_data.message
    status := "pending"
    proposed_at := now
    responded_at := none
    completed_at := none }

/-- The propose guards as the claim states them: the target listing exists,
is active, is not owned by the initiator, has volume at least the proposed
volume, and the initiator has no other pending swap against it. -/
def createGuards (swap_data : SwapCreateRequest) (initiator_id : Nat) (db : DB) : Prop :=
  ∃ l ∈ db.listings, l.id = swap_data.listing_id ∧ l.status = "active" ∧
    l.user_id ≠ initiator_id ∧ swap_data.proposed_volume ≤ l.volume ∧
    ∀ s ∈ db.swaps, ¬(s.listing_id = swap_data.listing_id ∧
      s.initiator_id = initiator_id ∧ s.status = "pending")

/-- C4: `create_swap` succeeds if and only if all propose guards hold, and
on success it creates exactly one new `pending` swap whose `recipient_id`
is the listing owner at this instant; when any guard fails the call is
rejected (no swap row is produced and the store is returned unchanged by
construction). -/
theorem create_swap_spec (swap_data : SwapCreateRequest) (initiator_id new_id now : Nat)
    (db : DB) (hL : UniqueListingIds db) :
    ((∃ r, create_swap swap_data initiator_id new_id now db = .ok r) ↔
      createGuards swap_data initiator_id db) ∧
    (∀ l ∈ db.listings, l.id = swap_data.listing_id → l.status = "active" →
      l.user_id ≠ initiator_id → swap_data.proposed_volume ≤ l.volume →
      (∀ s ∈ db.swaps, ¬(s.listing_id = swap_data.listing_id ∧
        s.initiator_id = initiator_id ∧ s.status = "pending")) →
      create_swap swap_data initiator_id new_id now db =
        .ok (proposedSwap swap_data initiator_id new_id now l.user_id,
          { db with swaps := db.swaps
              ++ [proposedSwap swap_data initiator_id new_id now l.user_id] })) := by
  have hsucc : ∀ l ∈ db.listings, l.id = swap_data.listing_id → l.status = "active" →
      l.user_id ≠ initiator_id → swap_data.proposed_volume ≤ l.volume →
      (∀ s ∈ db.swaps, ¬(s.listing_id = swap_data.listing_id ∧
        s.initiator_id = initiator_id ∧ s.status = "pending")) →
      create_swap swap_data initiator_id new_id now db =
        .ok (proposedSwap swap_data initiator_id new_id now l.user_id,
          { db with swaps := db.swaps
              ++ [proposedSwap swap_data initiator_id new_id now l.user_id] }) := by
    intro l hmem hid hact hown hvol hnp
    have hfl : db.listings.find? (fun t => t.id == swap_data.listing_id) = some l := by
      apply find_eq_some_of_nodup_keys (fun t => t.id) _ hL hmem
      · simp [hid]
      · intro b hb
        simp at hb
        rw [hb, hid]
    have hfp : db.swaps.find? (fun s => s.listing_id == swap_data.listing_id
        && s.initiator_id == initiator_id
        && s.status == SwapStatus.pending.value) = none := by
      rw [List.find?_eq_none]
      intro s hsmem
      simp only [SwapStatus.value, Bool.and_eq_true, beq_iff_eq, not_and]
      intro h1 h2
      exact hnp s hsmem ⟨h1.1, h1.2, h2⟩
    simp only [SwapStatus.value] at hfp
    simp [create_swap, hfl, hfp, hact, hown, not_lt.mpr hvol, proposedSwap,
      SwapStatus.value]
  refine ⟨⟨?_, ?_⟩, hsucc⟩
  · rintro ⟨r, hr⟩
    cases hfl : db.listings.find? (fun t => t.id == swap_data.listing_id) with
    | none => simp [create_swap, hfl] at hr
    | some l =>
      have hmem := List.mem_of_find?_eq_some hfl
      have hid : l.id = swap_data.listing_id := by
        have := List.find?_some hfl
        simpa using this
      by_cases h1 : (l.status != "active") = true
      · simp only [create_swap, hfl, if_pos h1] at hr
        cases hr
      · by_cases h2 : (l.user_id == initiator_id) = true
        · simp only [create_swap, hfl, if_neg h1, if_pos h2] at hr
          cases hr
        · by_cases h3 : l.volume < swap_data.proposed_volume
          · simp only [create_swap, hfl, if_neg h1, if_neg h2, if_pos h3] at hr
            cases hr
          · cases hfp : db.swaps.find? (fun s => s.listing_id == swap_data.listing_id
                && s.initiator_id == initiator_id
                && s.status == SwapStatus.pending.value) with
            | some s0 =>
              simp only [create_swap, hfl, if_neg h1, if_neg h2, if_neg h3, hfp] at hr
              cases hr
            | none =>
              have hact : l.status = "active" := by simpa using h1
              have hown : l.user_id ≠ initiator_id := by simpa using h2
              have hvol : swap_data.proposed_volume ≤ l.volume := not_lt.mp h3
              have hnp : ∀ s ∈ db.swaps, ¬(s.listing_id = swap_data.listing_id ∧
                  s.initiator_id = initiator_id ∧ s.status = "pending") := by
                intro s hsmem hcon
                rw [List.find?_eq_none] at hfp
                apply hfp s hsmem
                simp [SwapStatus.value, hcon.1, hcon.2.1, hcon.2.2]
              exact ⟨l, hmem, hid, hact, hown, hvol, hnp⟩
  · rintro ⟨l, hmem, hid, hact, hown, hvol, hnp⟩
    exact ⟨_, hsucc l hmem hid hact hown hvol hnp⟩

/-- Active listing fixture for the concrete propose run. -/
def listingC4 : Listings :=
  { id := 5, user_id := 10, listing_type := "supply", energy_type := "wind"
    volume := 100, price := 8, location := "east farm"
    start_time := 0, end_time := 10, status := "active" }

/-- Store fixture for the concrete propose run. -/
def dbC4 : DB := { listings := [listingC4], swaps := [] }

/-- Propose request fixture: 50 units against listing 5. -/
def dataC4 : SwapCreateRequest :=
  { listing_id := 5, proposed_volume := 50, proposed_price := none
    message := some "interested" }

/-- Concrete instance of the success clause of `create_swap_spec`. -/
theorem create_swap_spec_witness :
    create_swap dataC4 20 7 3 dbC4 =
      .ok (proposedSwap dataC4 20 7 3 listingC4.user_id,
        { dbC4 with swaps := dbC4.swaps ++ [proposedSwap dataC4 20 7 3 listingC4.user_id] }) :=
  (create_swap_spec dataC4 20 7 3 dbC4 (by decide)).2 listingC4
    (by decide) rfl rfl (by decide) (by decide) (by decide)

/-! ### C3: terminal states are closed -/

/-- Replacing the row keyed `k` by a row with the same key leaves the key
column of the table unchanged. -/
theorem updateSwap_map_id (l : List Swap) (k : Nat) (s' : Swap) (h : s'.id = k) :
    (updateSwap l k s').map (fun t => t.id) = l.map (fun t => t.id) := by
  unfold updateSwap
  induction l with
  | nil => rfl
  | cons c t ih =>
    simp only [List.map_cons, ih]
    congr 1
    by_cases hc : (c.id == k) = true
    · rw [if_pos hc, h]
      exact (beq_iff_eq.mp hc).symm
    · rw [if_neg hc]

/-- A row whose key differs from the replaced key survives the in-place
replacement untouched. -/
theorem mem_updateSwap_of_ne (l : List Swap) (k : Nat) (s' s : Swap)
    (hs : s ∈ l) (hne : s.id ≠ k) : s ∈ updateSwap l k s' := by
  unfold updateSwap
  have h : (if (s.id == k) = true then s' else s) = s :=
    if_neg (by simpa using hne)
  exact h ▸ List.mem_map_of_mem (fun t => if t.id == k then s' else t) hs

/-- Inversion of a successful `respond_to_swap`: the store held a matching
swap in a non-terminal state, and the new store replaces exactly that row
by the returned one. -/
theorem respond_ok_inv (sid uid : Nat) (upd : SwapUpdateRequest) (now : Nat)
    (db : DB) (p : Swap × DB)
    (h : respond_to_swap sid uid upd now db = .ok p) :
    ∃ f ∈ db.swaps, ¬terminalStatus f.status ∧ p.1.id = f.id ∧
      p.2.swaps = updateSwap db.swaps f.id p.1 := by
  cases hf : db.swaps.find? (fun t => t.id == sid && t.recipient_id == uid) with
  | none => simp [respond_to_swap, hf] at h
  | some f =>
    by_cases h1 : (f.status != SwapStatus.pending.value) = true
    · simp [respond_to_swap, hf, h1] at h
    · by_cases h2 : (!(upd.status == SwapStatus.accepted
          || upd.status == SwapStatus.rejected)) = true
      · simp [respond_to_swap, hf, h1, h2] at h
      · have hp : f.status = "pending" := by
          simpa [SwapStatus.value] using h1
        simp only [respond_to_swap, hf] at h
        rw [if_neg h1, if_neg h2] at h
        simp only [Except.ok.injEq] at h
        subst h
        exact ⟨f, List.mem_of_find?_eq_some hf,
          by simp [terminalStatus, hp], rfl, rfl⟩

/-- Inversion of a successful `cancel_swap`. -/
theorem cancel_ok_inv (sid uid : Nat) (db : DB) (p : Swap × DB)
    (h : cancel_swap sid uid db = .ok p) :
    ∃ f ∈ db.swaps, ¬terminalStatus f.status ∧ p.1.id = f.id ∧
      p.2.swaps = updateSwap db.swaps f.id p.1 := by
  cases hf : db.swaps.find? (fun t => t.id == sid
      && (t.initiator_id == uid || t.recipient_id == uid)) with
  | none => simp [cancel_swap, hf] at h
  | some f =>
    by_cases h1 : (!(f.status == SwapStatus.pending.value
        || f.status == SwapStatus.accepted.value)) = true
    · simp [cancel_swap, hf, h1] at h
    · have hst : f.status = "pending" ∨ f.status = "accepted" := by
        rw [or_iff_not_imp_left]
        simpa [SwapStatus.value] using h1
      simp only [cancel_swap, hf] at h
      rw [if_neg h1] at h
      simp only [Except.ok.injEq] at h
      subst h
      refine ⟨f, List.mem_of_find?_eq_some hf, ?_, rfl, rfl⟩
      rcases hst with h' | h' <;> simp [terminalStatus, h']

/-- Inversion of a successful `complete_swap` (swaps-table part). -/
theorem complete_ok_inv (sid uid now : Nat) (db : DB) (p : Swap × DB)
    (h : complete_swap sid uid now db = .ok p) :
    ∃ f ∈ db.swaps, ¬terminalStatus f.status ∧ p.1.id = f.id ∧
      p.2.swaps = updateSwap db.swaps f.id p.1 := by
  cases hf : db.swaps.find? (fun t => t.id == sid && t.recipient_id == uid) with
  | none => simp [complete_swap, hf] at h
  | some f =>
    by_cases h1 : (f.status != SwapStatus.accepted.value) = true
    · simp [complete_swap, hf, h1] at h
    · have hst : f.status = "accepted" := by
        simpa [SwapStatus.value] using h1
      simp only [complete_swap, hf] at h
      rw [if_neg h1] at h
      cases hfl : db.listings.find? (fun t => t.id == f.listing_id) with
      | none =>
        simp only [hfl, Except.ok.injEq] at h
        subst h
        exact ⟨f, List.mem_of_find?_eq_some hf,
          by simp [terminalStatus, hst], rfl, rfl⟩
      | some listing =>
        simp only [hfl, Except.ok.injEq] at h
        subst h
        exact ⟨f, List.mem_of_find?_eq_some hf,
          by simp [terminalStatus, hst], rfl, rfl⟩

/-- One lifecycle call preserves key uniqueness and leaves every stored
terminal-state swap in place, untouched. -/
theorem applySwapOp_preserves (op : SwapOp) (db : DB) (s : Swap)
    (hU : UniqueSwapIds db) (hs : s ∈ db.swaps) (ht : terminalStatus s.status) :
    UniqueSwapIds (applySwapOp op db) ∧ s ∈ (applySwapOp op db).swaps := by
  have main : ∀ p : Swap × DB, (∃ f ∈ db.swaps, ¬terminalStatus f.status ∧
      p.1.id = f.id ∧ p.2.swaps = updateSwap db.swaps f.id p.1) →
      UniqueSwapIds p.2 ∧ s ∈ p.2.swaps := by
    rintro p ⟨f, hf, hnt, hpid, hpsw⟩
    have hne : s.id ≠ f.id := by
      intro h
      have heq : s = f := eq_of_nodup_keys (fun t => t.id) hU hs hf h
      rw [heq] at ht
      exact hnt ht
    constructor
    · unfold UniqueSwapIds
      rw [hpsw, updateSwap_map_id _ _ _ hpid]
      exact hU
    · rw [hpsw]
      exact mem_updateSwap_of_ne _ _ _ _ hs hne
  cases op with
  | respond sid uid upd now =>
    cases hr : respond_to_swap sid uid upd now db with
    | error e =>
      have hkeep : applySwapOp (SwapOp.respond sid uid upd now) db = db := by
        simp [applySwapOp, hr]
      rw [hkeep]
      exact ⟨hU, hs⟩
    | ok p =>
      have hnew : applySwapOp (SwapOp.respond sid uid upd now) db = p.2 := by
        simp [applySwapOp, hr]
      rw [hnew]
      exact main p (respond_ok_inv sid uid upd now db p hr)
  | cancel sid uid =>
    cases hr : cancel_swap sid uid db with
    | error e =>
      have hkeep : applySwapOp (SwapOp.cancel sid uid) db = db := by
        simp [applySwapOp, hr]
      rw [hkeep]
      exact ⟨hU, hs⟩
    | ok p =>
      have hnew : applySwapOp (SwapOp.cancel sid uid) db = p.2 := by
        simp [applySwapOp, hr]
      rw [hnew]
      exact main p (cancel_ok_inv sid uid db p hr)
  | complete sid uid now =>
    cases hr : complete_swap sid uid now db with
    | error e =>
      have hkeep : applySwapOp (SwapOp.complete sid uid now) db = db := by
        simp [applySwapOp, hr]
      rw [hkeep]
      exact ⟨hU, hs⟩
    | ok p =>
      have hnew : applySwapOp (SwapOp.complete sid uid now) db = p.2 := by
        simp [applySwapOp, hr]
      rw [hnew]
      exact main p (complete_ok_inv sid uid now db p hr)

/-- A sequence of lifecycle calls preserves key uniqueness and every
terminal-state swap. -/
theorem applySwapOps_preserves (ops : List SwapOp) (db : DB) (s : Swap)
    (hU : UniqueSwapIds db) (hs : s ∈ db.swaps) (ht : terminalStatus s.status) :
    UniqueSwapIds (applySwapOps ops db) ∧ s ∈ (applySwapOps ops db).swaps := by
  induction ops generalizing db with
  | nil => exact ⟨hU, hs⟩
  | cons op rest ih =>
    have h1 := applySwapOp_preserves op db s hU hs ht
    exact ih (applySwapOp op db) h1.1 h1.2

/-- Responding to a terminal-state swap is always rejected, whoever calls. -/
theorem respond_terminal_rejected (db : DB) (s : Swap) (uid : Nat)
    (upd : SwapUpdateRequest) (now : Nat)
    (hU : UniqueSwapIds db) (hs : s ∈ db.swaps) (ht : terminalStatus s.status) :
    ∃ e, respond_to_swap s.id uid upd now db = .error e := by
  cases hf : db.swaps.find? (fun t => t.id == s.id && t.recipient_id == uid) with
  | none =>
    exact ⟨⟨404, "Swap not found or you don't have permission to respond"⟩,
      by simp [respond_to_swap, hf]⟩
  | some f =>
    have hfid : f.id = s.id := by
      have hp := List.find?_some hf
      simp at hp
      exact hp.1
    have hfs : f = s :=
      eq_of_nodup_keys (fun t => t.id) hU (List.mem_of_find?_eq_some hf) hs hfid
    subst hfs
    have hcond : (f.status != SwapStatus.pending.value) = true := by
      rcases ht with h | h | h <;> simp [h, SwapStatus.value]
    exact ⟨⟨400, "Cannot update swap with status: " ++ f.status⟩,
      by simp [respond_to_swap, hf, hcond]⟩

/-- Cancelling a terminal-state swap is always rejected, whoever calls. -/
theorem cancel_terminal_rejected (db : DB) (s : Swap) (uid : Nat)
    (hU : UniqueSwapIds db) (hs : s ∈ db.swaps) (ht : terminalStatus s.status) :
    ∃ e, cancel_swap s.id uid db = .error e := by
  cases hf : db.swaps.find? (fun t => t.id == s.id
      && (t.initiator_id == uid || t.recipient_id == uid)) with
  | none =>
    exact ⟨⟨404, "Swap not found or you don't have permission to cancel it"⟩,
      by simp [cancel_swap, hf]⟩
  | some f =>
    have hfid : f.id = s.id := by
      have hp := List.find?_some hf
      simp at hp
      exact hp.1
    have hfs : f = s :=
      eq_of_nodup_keys (fun t => t.id) hU (List.mem_of_find?_eq_some hf) hs hfid
    subst hfs
    have hcond : (!(f.status == SwapStatus.pending.value
        || f.status == SwapStatus.accepted.value)) = true := by
      rcases ht with h | h | h <;> simp [h, SwapStatus.value]
    exact ⟨⟨400, "Cannot cancel swap with status: " ++ f.status⟩,
      by simp [cancel_swap, hf, hcond]⟩

/-- Completing a terminal-state swap is always rejected, whoever calls. -/
theorem complete_terminal_rejected (db : DB) (s : Swap) (uid now : Nat)
    (hU : UniqueSwapIds db) (hs : s ∈ db.swaps) (ht : terminalStatus s.status) :
    ∃ e, complete_swap s.id uid now db = .error e := by
  cases hf : db.swaps.find? (fun t => t.id == s.id && t.recipient_id == uid) with
  | none =>
    exact ⟨⟨404, "Swap not found or you don't have permission to complete it"⟩,
      by simp [complete_swap, hf]⟩
  | some f =>
    have hfid : f.id = s.id := by
      have hp := List.find?_some hf
      simp at hp
      exact hp.1
    have hfs : f = s :=
      eq_of_nodup_keys (fun t => t.id) hU (List.mem_of_find?_eq_some hf) hs hfid
    subst hfs
    have hcond : (f.status != SwapStatus.accepted.value) = true := by
      rcases ht with h | h | h <;> simp [h, SwapStatus.value]
    exact ⟨⟨400, "Can only complete an accepted swap"⟩,
      by simp [complete_swap, hf, hcond]⟩

/-- C3: the three terminal states are closed under the lifecycle
operations: a stored swap in `completed`, `rejected` or `cancelled` is
still stored unchanged after any sequence of respond/cancel/complete calls
with any caller and arguments, and each such call addressed at it is
rejected. -/
theorem swap_terminal_closure (ops : List SwapOp) (db : DB) (s : Swap)
    (hU : UniqueSwapIds db) (hs : s ∈ db.swaps) (ht : terminalStatus s.status) :
    s ∈ (applySwapOps ops db).swaps ∧
    (∀ t ∈ (applySwapOps ops db).swaps, t.id = s.id → t = s) ∧
    (∀ uid upd now, ∃ e, respond_to_swap s.id uid upd now db = .error e) ∧
    (∀ uid, ∃ e, cancel_swap s.id uid db = .error e) ∧
    (∀ uid now, ∃ e, complete_swap s.id uid now db = .error e) := by
  obtain ⟨hU', hs'⟩ := applySwapOps_preserves ops db s hU hs ht
  refine ⟨hs', ?_, ?_, ?_, ?_⟩
  · intro t htm hid
    exact eq_of_nodup_keys (fun x => x.id) hU' htm hs' hid
  · intro uid upd now
    exact respond_terminal_rejected db s uid upd now hU hs ht
  · intro uid
    exact cancel_terminal_rejected db s uid hU hs ht
  · intro uid now
    exact complete_terminal_rejected db s uid now hU hs ht

/-- Completed-swap fixture for the concrete closure run. -/
def swapC3 : Swap :=
  { id := 9, listing_id := 7, initiator_id := 20, recipient_id := 10
    proposed_volume := 5, proposed_price := none, message := none
    status := "completed", proposed_at := 0, responded_at := some 1
    completed_at := some 2 }

/-- Store fixture holding exactly `swapC3`. -/
def dbC3 : DB := { listings := [], swaps := [swapC3] }

/-- Update request fixture used by the concrete closure run. -/
def updC3 : SwapUpdateRequest := { status := SwapStatus.accepted, message := none }

/-- A sequence exercising all three operations against the completed swap. -/
def opsC3 : List SwapOp :=
  [SwapOp.respond 9 10 updC3 3, SwapOp.cancel 9 20, SwapOp.complete 9 10 4]

/-- Concrete instance of `swap_terminal_closure`: the completed swap is
still stored after the whole sequence. -/
theorem swap_terminal_closure_witness :
    swapC3 ∈ (applySwapOps opsC3 dbC3).swaps :=
  (swap_terminal_closure opsC3 dbC3 swapC3 (by decide) (by decide) (Or.inl rfl)).1
